import Mathlib

/-!
Verification of the parallel test execution and scoring engine of the
`ai_testbed` repository (`src/ai_testbed/test_runner.py` together with the
connector base types in `src/ai_testbed/connectors/`).

The Python code is shallowly embedded below: strings become `String`,
Python `Optional[T]` becomes `Option T`, Python numbers used by the
aggregation code (floats holding exact small quotients) become `Rat`,
Python dictionaries keyed by test or model name become association lists,
and code that can raise becomes `Except String`.  Wall-clock readings
(`time.time()` differences) are passed in as explicit parameters.
-/

/-- Whitespace characters matched by the regular expression class used in
`normalize_whitespace` (test_runner.py lines 16-21) and stripped by
`str.strip()`: space, tab, newline, carriage return, form feed and
vertical tab (the ASCII members of the class). -/
def isPySpace (c : Char) : Bool :=
  c = ' ' || c = '\t' || c = '\n' || c = '\r' || c = '\x0b' || c = '\x0c'

/-- `str.strip()`: drop leading and trailing whitespace. -/
def pyStrip (l : List Char) : List Char :=
  ((l.dropWhile isPySpace).reverse.dropWhile isPySpace).reverse

/-- State machine for the substitution of every maximal whitespace run by a
single space (test_runner.py line 20).  The boolean records whether the
previous character belonged to a whitespace run. -/
def collapseGo : List Char → Bool → List Char
  | [], _ => []
  | c :: cs, inRun =>
    if isPySpace c then
      if inRun then collapseGo cs true else ' ' :: collapseGo cs true
    else
      c :: collapseGo cs false

/-- `normalize_whitespace` (test_runner.py lines 16-21): strip the ends,
then collapse each whitespace run to one space. -/
def normalize_whitespace (s : String) : String :=
  ⟨collapseGo (pyStrip s.data) false⟩

/-- Inner loop of `levenshtein_distance` (test_runner.py lines 34-38): given
the current character `c1` of the longer string, the remaining characters of
the shorter string, the tail of the previous row starting at `prev[j]`, and
the value `cur = current_row[j]`, produce `current_row[j+1 ..]`.  Each new
entry is `min(prev[j+1] + 1, cur + 1, prev[j] + (c1 != c2))`. -/
def curRowAux (c1 : Char) : List Char → List Nat → Nat → List Nat
  | [], _, _ => []
  | _ :: _, [], _ => []
  | _ :: _, [_], _ => []
  | c2 :: cs, p0 :: p1 :: ps, cur =>
    let v := min (p1 + 1) (min (cur + 1) (p0 + (if c1 = c2 then 0 else 1)))
    v :: curRowAux c1 cs (p1 :: ps) v

/-- Outer loop of `levenshtein_distance` (test_runner.py lines 32-39):
fold over the characters of the longer string, carrying the row index and
the previous row; each step starts the new row with `i + 1`. -/
def levLoop (b : List Char) : List Char → Nat → List Nat → List Nat
  | [], _, prev => prev
  | c1 :: cs, i, prev => levLoop b cs (i + 1) ((i + 1) :: curRowAux c1 b prev (i + 1))

/-- Body of `levenshtein_distance` after the argument swap
(test_runner.py lines 28-41): an empty second string yields the length of
the first, otherwise the dynamic program runs and the answer is the last
entry of the final row (`previous_row[-1]`). -/
def lev_core (a b : List Char) : Nat :=
  if b.length = 0 then a.length
  else (levLoop b a 0 (List.range (b.length + 1))).getLastD 0

/-- `levenshtein_distance` (test_runner.py lines 23-41).  The Python
function first swaps its arguments when the first is shorter, so the
recursive call is exactly one level deep and the swapped call runs the
dynamic program directly. -/
def levenshtein_distance (s1 s2 : String) : Nat :=
  if s1.data.length < s2.data.length then lev_core s2.data s1.data
  else lev_core s1.data s2.data

/-- Prefix distance table of the dynamic program: `levD a b i j` is the
value `row_i[j]` computed by `levenshtein_distance` for the length-`i`
prefix of `a` against the length-`j` prefix of `b`, defined by the same
recurrence the inner loop evaluates. -/
def levD (a b : List Char) : Nat → Nat → Nat
  | 0, j => j
  | i + 1, 0 => i + 1
  | i + 1, j + 1 =>
    min (levD a b i (j + 1) + 1)
      (min (levD a b (i + 1) j + 1)
        (levD a b i j + (if a.getD i ' ' = b.getD j ' ' then 0 else 1)))

/-- `GenerateResult` (connectors/base.py lines 8-12).  The dataclass
declares exactly the fields `text`, `model` and `error` — it has no
`first_byte_latency_ms` field. -/
structure GenerateResult where
  text : String
  model : String
  error : Option String := none
deriving DecidableEq

/-- Python attribute access `result.first_byte_latency_ms` performed by
`run_single_test` (test_runner.py line 565).  Because the dataclass
`GenerateResult` (connectors/base.py lines 8-12) declares no such field,
this access raises `AttributeError` on every instance; the raise is
modelled as a failing `Except`, carrying the interpreter message. -/
def attr_error_msg : String :=
  "\x27GenerateResult\x27 object has no attribute \x27first_byte_latency_ms\x27"

/-- Attribute lookup for `first_byte_latency_ms` on a `GenerateResult`:
always an `AttributeError`, since connectors/base.py lines 8-12 declare
only `text`, `model` and `error`. -/
def GenerateResult.getFirstByteLatencyMs (_ : GenerateResult) : Except String (Option Rat) :=
  .error attr_error_msg

/-- `TestConfig` (config/loader.py lines 12-17). -/
structure TestConfig where
  name : String
  description : String
  prompt : String
  expected_output : String
  exact_match : Bool := true
deriving DecidableEq

/-- `ModelConfig` (config/loader.py lines 6-10). -/
structure ModelConfig where
  provider : String
  endpoint : String
  api_key : String
  timeout_s : Nat := 30
deriving DecidableEq

/-- `ModelRunConfig` (config/loader.py lines 25-27).  `runsSet` records
whether the `runs` field was explicitly supplied (pydantic keeps this in
`__fields_set__`, which `run_test` consults at test_runner.py line 651). -/
structure ModelRunConfig where
  name : String
  runs : Nat := 1
  runsSet : Bool := false
deriving DecidableEq

/-- `TestRunConfig` (config/loader.py lines 29-31). -/
structure TestRunConfig where
  models : List ModelRunConfig
  runs_per_test : Nat := 1
deriving DecidableEq

/-- `TestResult` (test_runner.py lines 43-53). -/
structure TestResult where
  test_name : String
  model_name : String
  passed : Bool
  expected : String
  actual : String
  run_number : Nat := 1
  error : Option String := none
  distance : Option Nat := none
  latency_ms : Option Rat := none
deriving DecidableEq

/-- `BaseConnector._should_retry` combined with the default
`_should_retry_empty_response` (connectors/base.py lines 72-87): never
retry past `max_retries`; retry when the attempt reported an error;
otherwise do not retry (the echo connector does not override the
empty-response hook). -/
def should_retry_default (result : GenerateResult) (attempt max_retries : Nat) : Bool :=
  if max_retries ≤ attempt then false else result.error.isSome

/-- Retry loop of `BaseConnector.generate_with_retry` (connectors/base.py
lines 108-168).  `single attempt` is the outcome of
`_generate_single` on that attempt — a thrown exception becomes
`.error`.  The `fuel` argument counts the remaining loop iterations and
equals `max_retries + 1 - attempt`, so exhausting it reproduces the
fall-through after the `for` loop (lines 160-168), which wraps the last
error or synthesizes the empty-response failure.  Sleeps, prints and the
rate-limit delay parsing affect timing only and are not modelled. -/
def gwrLoop (single : Nat → Except String GenerateResult) (model_name : String)
    (max_retries : Nat) : Nat → Option GenerateResult → Nat → GenerateResult
  | _, last, 0 =>
    match last with
    | some lr =>
      match lr.error with
      | some err =>
        { lr with error := some ("Failed after " ++ toString (max_retries + 1) ++
            " attempts. Last error: " ++ err) }
      | none =>
        { text := "", model := model_name,
          error := some ("Failed after " ++ toString (max_retries + 1) ++
            " attempts with empty responses") }
    | none =>
      { text := "", model := model_name,
        error := some ("Failed after " ++ toString (max_retries + 1) ++
          " attempts with empty responses") }
  | attempt, _, fuel + 1 =>
    match single attempt with
    | .ok result =>
      if should_retry_default result attempt max_retries then
        gwrLoop single model_name max_retries (attempt + 1) (some result) fuel
      else result
    | .error e =>
      gwrLoop single model_name max_retries (attempt + 1)
        (some { text := "", model := model_name,
                error := some ("Unexpected error on attempt " ++ toString (attempt + 1) ++
                  ": " ++ e) }) fuel

/-- `BaseConnector.generate` = `generate_with_retry` (connectors/base.py
lines 108-182), starting at attempt 0 with no previous result. -/
def generate_with_retry (single : Nat → Except String GenerateResult)
    (model_name : String) (max_retries : Nat) : GenerateResult :=
  gwrLoop single model_name max_retries 0 none (max_retries + 1)

/-- `EchoConnector._generate_single` (connectors/echo.py lines 5-14):
return the prompt unchanged with no error. -/
def echo_generate_single (model_name prompt : String) : GenerateResult :=
  { text := prompt, model := model_name, error := none }

/-- The echo connector's public `generate`: the retry wrapper around its
deterministic `_generate_single`, with the `max_retries = 3` that
`create_connector` passes (connectors/registry.py lines 35-43). -/
def echo_generate (model_name prompt : String) : GenerateResult :=
  generate_with_retry (fun _ => .ok (echo_generate_single model_name prompt)) model_name 3

/-- Python `str.lower()`, character by character (the inputs under test
are ASCII, where this agrees with Python). -/
def pyLower (s : String) : String :=
  ⟨s.data.map Char.toLower⟩

/-- Python substring membership `needle in hay` on character lists:
`needle` occurs contiguously in `hay`. -/
def strIn (needle : List Char) : List Char → Bool
  | [] => needle.isEmpty
  | c :: cs => needle.isPrefixOf (c :: cs) || strIn needle cs

/-- Substring test criterion of `run_single_test` (test_runner.py
line 581): `expected_output.lower() in actual_output.lower()`. -/
def substring_pass (expected actual : String) : Bool :=
  strIn (pyLower expected).data (pyLower actual).data

/-- `ModelTestRunner.run_single_test` (test_runner.py lines 513-633).
Dictionaries become association lists; `gen` is the outcome of
`create_connector` followed by `connector.generate(prompt)` (both run
inside the `try`, so a raise from either lands in the `except` arms,
which build identical error results); `elapsed_ms` is the wall-clock
difference `(end_time - start_time) * 1000` observed at whichever point
the code reads the clock.  After a successful `generate`, line 565 reads
`result.first_byte_latency_ms`; on the dataclass of base.py that access
raises `AttributeError`, which the `except Exception` arm (lines 617-633)
converts to an error result.  The arm for a returned value follows lines
565-597 of the source. -/
def run_single_test (tests : List (String × TestConfig))
    (models : List (String × ModelConfig)) (gen : Except String GenerateResult)
    (elapsed_ms : Rat) (test_name model_name : String) (run_number : Nat) : TestResult :=
  match List.lookup test_name tests with
  | none =>
    { test_name := test_name, model_name := model_name, passed := false,
      expected := "", actual := "", run_number := run_number,
      error := some ("Test \x27" ++ test_name ++ "\x27 not found in configuration"),
      distance := none, latency_ms := some 0 }
  | some test_config =>
    match List.lookup model_name models with
    | none =>
      { test_name := test_name, model_name := model_name, passed := false,
        expected := test_config.expected_output, actual := "", run_number := run_number,
        error := some ("Model \x27" ++ model_name ++ "\x27 not found in models configuration"),
        distance := none, latency_ms := some 0 }
    | some _ =>
      match gen with
      | .error e =>
        { test_name := test_name, model_name := model_name, passed := false,
          expected := test_config.expected_output, actual := "", run_number := run_number,
          error := some e, distance := none, latency_ms := some elapsed_ms }
      | .ok result =>
        match result.getFirstByteLatencyMs with
        | .error e =>
          { test_name := test_name, model_name := model_name, passed := false,
            expected := test_config.expected_output, actual := "", run_number := run_number,
            error := some e, distance := none, latency_ms := some elapsed_ms }
        | .ok fbl =>
          let latency_ms := fbl.getD elapsed_ms
          let actual_output := result.text
          if test_config.exact_match then
            let expected_normalized := normalize_whitespace test_config.expected_output
            let actual_normalized := normalize_whitespace actual_output
            { test_name := test_name, model_name := model_name,
              passed := expected_normalized == actual_normalized,
              expected := test_config.expected_output, actual := actual_output,
              run_number := run_number, error := none,
              distance := some (levenshtein_distance expected_normalized actual_normalized),
              latency_ms := some latency_ms }
          else
            { test_name := test_name, model_name := model_name,
              passed := substring_pass test_config.expected_output actual_output,
              expected := test_config.expected_output, actual := actual_output,
              run_number := run_number, error := none,
              distance := none, latency_ms := some latency_ms }

/-- Run-count resolution of `run_test` (test_runner.py lines 649-654):
an explicitly set `runs` wins, otherwise the global `runs_per_test`. -/
def effective_runs (mr : ModelRunConfig) (runs_per_test : Nat) : Nat :=
  if mr.runsSet then mr.runs else runs_per_test

/-- Task expansion of `run_test` (test_runner.py lines 646-657): for each
configured model entry, the run requests `(test_name, model_name, run_num)`
for `run_num` in `range(1, runs + 1)`. -/
def expand_tasks (test_name : String) (trc : TestRunConfig) : List (String × String × Nat) :=
  trc.models.flatMap (fun mr =>
    (List.range (effective_runs mr trc.runs_per_test)).map
      (fun k => (test_name, mr.name, k + 1)))

/-- Handling of one completed future in `run_test` (test_runner.py lines
672-709): a future that returns yields its `TestResult`; a future that
raises (`raises t = some e`) is converted to the synthesized failing
result of lines 684-703, whose expected output is looked up again in the
test configuration. -/
def run_test_item (tests : List (String × TestConfig)) (models : List (String × ModelConfig))
    (genOf : String × String × Nat → Except String GenerateResult)
    (elapsedOf : String × String × Nat → Rat)
    (raises : String × String × Nat → Option String)
    (t : String × String × Nat) : TestResult :=
  match raises t with
  | none => run_single_test tests models (genOf t) (elapsedOf t) t.1 t.2.1 t.2.2
  | some e =>
    { test_name := t.1, model_name := t.2.1, passed := false,
      expected := (match List.lookup t.1 tests with
                   | some tc => tc.expected_output
                   | none => ""),
      actual := "", run_number := t.2.2,
      error := some ("Model execution failed: " ++ e),
      distance := none, latency_ms := none }

/-- `ModelTestRunner._is_local_provider` (test_runner.py lines 486-493):
a provider needing no API key — a `mock://` endpoint (tested twice, by
containment and by prefix, as in the source) or a model name starting in
`echo-` or `mock-`. -/
def is_local_provider (endpoint model_name : String) : Bool :=
  strIn "mock://".data endpoint.data || "mock://".data.isPrefixOf endpoint.data
  || "echo-".data.isPrefixOf model_name.data || "mock-".data.isPrefixOf model_name.data

/-- The missing-or-invalid API key test of
`_validate_all_model_api_keys` (test_runner.py line 471): falsy (empty),
whitespace-only after `strip()`, or one of the placeholder values. -/
def is_placeholder_key (api_key : String) : Bool :=
  api_key = "" || (⟨pyStrip api_key.data⟩ : String) = ""
  || api_key = "dummy" || api_key = "test-key" || api_key = "mock-key"
  || api_key = "$\x7bOPENAI_API_KEY\x7d" || api_key = "$\x7bANTHROPIC_API_KEY\x7d"

/-- One iteration of `_validate_all_model_api_keys` (test_runner.py lines
459-480): a run-matrix entry triggers `sys.exit(1)` when its name is
found in the models configuration, the provider is not local, and the
API key is missing or a placeholder.  Entries naming unknown models are
skipped, and the surrounding `except Exception` arm never fires on this
path (`SystemExit` derives from `BaseException`, not `Exception`). -/
def model_key_aborts (models : List (String × ModelConfig)) (mr : ModelRunConfig) : Bool :=
  match List.lookup mr.name models with
  | none => false
  | some mc =>
    if is_local_provider mc.endpoint mr.name then false
    else is_placeholder_key mc.api_key

/-- `ModelTestRunner._validate_all_model_api_keys` (test_runner.py lines
457-484), reduced to its observable effect: `true` when some configured
run-matrix entry makes it call `sys.exit(1)`, aborting the run. -/
def validate_all_model_api_keys (entries : List ModelRunConfig)
    (models : List (String × ModelConfig)) : Bool :=
  entries.any (fun mr => model_key_aborts models mr)

/-- `ModelTestRunner.run_test` (test_runner.py lines 635-711).  An unknown
test name returns `[]` at once (lines 637-638).  Next,
`_validate_all_model_api_keys()` (line 643) may call `sys.exit(1)`; the
raised `SystemExit` is not an `Exception`, so no handler in `run_test`
catches it and the process aborts before any task is expanded — modelled
by the `.error` branch.  Otherwise every expanded task is submitted to
the pool and results are appended in completion order; `completed` is
that completion order — the scheduler guarantee that every submitted task
completes exactly once makes it a permutation of `expand_tasks` (lines
646-657), which each theorem takes as a hypothesis.  `genOf`, `elapsedOf`
and `raises` describe, per task, the connector outcome, the observed wall
time and whether the future itself raised. -/
def run_test (tests : List (String × TestConfig)) (models : List (String × ModelConfig))
    (trc : TestRunConfig)
    (genOf : String × String × Nat → Except String GenerateResult)
    (elapsedOf : String × String × Nat → Rat)
    (raises : String × String × Nat → Option String)
    (completed : List (String × String × Nat)) (test_name : String) :
    Except String (List TestResult) :=
  match List.lookup test_name tests with
  | none => .ok []
  | some _ =>
    if validate_all_model_api_keys trc.models models then .error "SystemExit: 1"
    else .ok (completed.map (run_test_item tests models genOf elapsedOf raises))

/-- Python's binary `min` on rationals. -/
def pymin (a b : Rat) : Rat :=
  if a ≤ b then a else b

/-- Python's binary `max` on rationals. -/
def pymax (a b : Rat) : Rat :=
  if a ≤ b then b else a

/-- Passed-run count of a model's result list (`model_passed` /
`passed_tests`, test_runner.py lines 807, 827). -/
def console_passed (rs : List TestResult) : Nat :=
  (rs.filter (fun r => r.passed)).length

/-- Overall pass rate of `_print_model_comparison_table`
(test_runner.py line 839): `passed / total * 100` when the total is
positive, else 0. -/
def console_pass_rate (rs : List TestResult) : Rat :=
  if 0 < rs.length then ((console_passed rs : Rat) / (rs.length : Rat)) * 100 else 0

/-- Total distance of `_print_model_comparison_table` (test_runner.py
line 811): `sum(r.distance or 0 for r in results)` — a missing distance
contributes 0 to the sum. -/
def console_total_distance (rs : List TestResult) : Nat :=
  (rs.map (fun r => r.distance.getD 0)).sum

/-- Overall average distance of `_print_model_comparison_table`
(test_runner.py line 840): the total distance divided by the total
number of outcomes (not only the distance-carrying ones). -/
def console_avg_distance (rs : List TestResult) : Rat :=
  if 0 < rs.length then (console_total_distance rs : Rat) / (rs.length : Rat) else 0

/-- Overall score of `_print_model_comparison_table` (test_runner.py
lines 842-852): 100 at a 100% pass rate; pass rate minus the capped
distance penalty when some run passed; the inverse-distance score when
none did. -/
def console_overall_score (pass_rate avg_distance : Rat) : Rat :=
  if pass_rate = 100 then 100
  else if 0 < pass_rate then pymax (pass_rate - pymin (avg_distance / 100) 50) 0
  else pymax (50 - avg_distance / 10) 0

/-- The composite-score formula as the specification states it: 100 at a
100% pass rate; `max(pass_rate - min(avg_distance/100, 50), 0)` at a
positive partial pass rate; `max(50 - avg_distance/10, 0)` at a 0% pass
rate. -/
def specCompositeScore (pass_rate avg_distance : Rat) : Rat :=
  if pass_rate = 100 then 100
  else if 0 < pass_rate then pymax (pass_rate - pymin (avg_distance / 100) 50) 0
  else pymax (50 - avg_distance / 10) 0

/-- Passed count of `_export_results_to_html` (test_runner.py line 137). -/
def html_passed (rs : List TestResult) : Nat :=
  (rs.filter (fun r => r.passed)).length

/-- Pass rate of `_export_results_to_html` (test_runner.py line 139). -/
def html_pass_rate (rs : List TestResult) : Rat :=
  if 0 < rs.length then ((html_passed rs : Rat) / (rs.length : Rat)) * 100 else 0

/-- Average distance of `_export_results_to_html` (test_runner.py lines
141-143): the mean over the results whose `distance` is not `None`, and 0
when there are none. -/
def html_avg_distance (rs : List TestResult) : Rat :=
  let ds : List Nat := rs.filterMap (fun r => r.distance)
  if ds.length = 0 then 0 else (ds.sum : Rat) / (ds.length : Rat)

/-- Per-model average distance as the specification states it: the mean
taken over only the outcomes that carry a distance value, excluding the
others from both numerator and denominator (0 when no outcome carries
one). -/
def specAvgDistance (rs : List TestResult) : Rat :=
  let carrying : List TestResult := rs.filter (fun r => r.distance.isSome)
  let ds : List Nat := carrying.map (fun r => r.distance.getD 0)
  if carrying.length = 0 then 0 else (ds.sum : Rat) / (carrying.length : Rat)

/-- Score of `_export_results_to_html` (test_runner.py lines 145-151):
pass rate minus the capped penalty, overridden by the inverse-distance
score only when no run passed *and* the average distance is positive. -/
def html_score (rs : List TestResult) : Rat :=
  let pass_rate := html_pass_rate rs
  let avg_distance := html_avg_distance rs
  let distance_penalty := pymin (avg_distance / 100) 50
  let score := pymax (pass_rate - distance_penalty) 0
  if html_passed rs = 0 ∧ 0 < avg_distance then pymax (50 - avg_distance / 10) 0
  else score

/-- Ascending insertion of one element, the building block of the sort
used to model Python's `list.sort()`. -/
def insertSorted (x : Rat) : List Rat → List Rat
  | [] => [x]
  | y :: ys => if x ≤ y then x :: y :: ys else y :: insertSorted x ys

/-- Python's `latencies.sort()` (ascending).  Over a linearly ordered
type the ascending rearrangement of a list is unique, so any sorting
algorithm models it; insertion sort is used here. -/
def pysort (l : List Rat) : List Rat :=
  l.foldr insertSorted []

/-- Latency collection of one (test, model) cell (test_runner.py lines
1062-1064 and 402-404): the latencies of the results for that model that
carry one. -/
def cell_latencies (results : List TestResult) (model_name : String) : List Rat :=
  (results.filter (fun r => r.model_name = model_name && r.latency_ms.isSome)).filterMap
    (fun r => r.latency_ms)

/-- P95 computation of `_print_test_model_latency_table` (test_runner.py
lines 1064-1071) and of `_export_results_to_html` (lines 404-411): sort
ascending, take index `int(len * 0.95)`, reset it to `len - 1` when it
falls outside the list, and index; an empty list yields 0. -/
def p95_code (latencies : List Rat) : Rat :=
  let sorted := pysort latencies
  let i0 := (Rat.floor ((latencies.length : Rat) * (95 / 100))).toNat
  let i := if latencies.length ≤ i0 then latencies.length - 1 else i0
  if latencies = [] then 0 else sorted.getD i 0

/-- P95 as the specification states it: the element obtained by sorting
the latencies ascending and indexing at `floor(count × 0.95)`, clamped to
the last index. -/
def p95_spec (latencies : List Rat) : Rat :=
  (pysort latencies).getD
    (min ((Rat.floor ((latencies.length : Rat) * (95 / 100))).toNat)
      (latencies.length - 1)) 0


/-- The identifying key of a `TestResult`: which run request it answers. -/
def resultKey (r : TestResult) : String × String × Nat :=
  (r.test_name, r.model_name, r.run_number)

/-- Run numbers reported for one model inside a result list. -/
def runNumbersFor (rs : List TestResult) (name : String) : List Nat :=
  rs.filterMap (fun r => if r.model_name = name then some r.run_number else none)

/-- The `greet` test of the end-to-end scenario: prompt "hi", expected
"hi", exact match. -/
def greetTest : TestConfig :=
  { name := "greet", description := "", prompt := "hi", expected_output := "hi",
    exact_match := true }

/-- An echo model entry as configured for the echo provider. -/
def echoModel : ModelConfig :=
  { provider := "echo", endpoint := "mock://echo", api_key := "", timeout_s := 30 }

/-- A one-test configuration holding `greet`. -/
def demoTests : List (String × TestConfig) := [("greet", greetTest)]

/-- A one-model configuration holding the echo model `echo-1`. -/
def demoModels : List (String × ModelConfig) := [("echo-1", echoModel)]

/-- The three outcomes of running `greet` three times against the echo
connector, whose `generate` returns the prompt unchanged. -/
def c1Outcomes : List TestResult :=
  (List.range 3).map (fun k =>
    run_single_test demoTests demoModels (.ok (echo_generate "echo-1" "hi")) 1
      "greet" "echo-1" (k + 1))

/-- Outcome of a run whose connector returned a populated error field
(`text=""`, `error="boom"`), with 7 ms of elapsed wall time. -/
def c2Outcome : TestResult :=
  run_single_test demoTests demoModels
    (.ok { text := "", model := "echo-1", error := some "boom" }) 7 "greet" "echo-1" 1

/-- Outcome of a run whose connector raised the exception "kaboom", with
9 ms of elapsed wall time. -/
def c2Thrown : TestResult :=
  run_single_test demoTests demoModels (.error "kaboom") 9 "greet" "echo-1" 1

/-- A substring-match test expecting "Hello" somewhere in the output. -/
def containsTest : TestConfig :=
  { name := "contains", description := "", prompt := "p", expected_output := "Hello",
    exact_match := false }

/-- A one-test configuration holding the substring test. -/
def c6Tests : List (String × TestConfig) := [("contains", containsTest)]

/-- Outcome of the substring test against a connector that returned
"say hello there", which does contain "hello". -/
def c6Outcome : TestResult :=
  run_single_test c6Tests demoModels
    (.ok { text := "say hello there", model := "echo-1", error := none }) 3
    "contains" "echo-1" 1

/-- A failing outcome carrying no distance (an error outcome). -/
def rErrorNoDist : TestResult :=
  { test_name := "greet", model_name := "m", passed := false, expected := "hi",
    actual := "", run_number := 1, error := some "boom", distance := none,
    latency_ms := some 0 }

/-- A failing outcome carrying distance 10. -/
def rDist10 : TestResult :=
  { test_name := "greet", model_name := "m", passed := false, expected := "hi",
    actual := "xx", run_number := 2, error := none, distance := some 10,
    latency_ms := some 2 }

/-- A passing outcome carrying distance 0. -/
def rPassZero : TestResult :=
  { test_name := "greet", model_name := "m", passed := true, expected := "hi",
    actual := "hi", run_number := 1, error := none, distance := some 0,
    latency_ms := some 1 }

/-- A result of model `m` with latency 5 ms. -/
def latA : TestResult :=
  { test_name := "greet", model_name := "m", passed := true, expected := "hi",
    actual := "hi", run_number := 1, error := none, distance := some 0,
    latency_ms := some 5 }

/-- A result of model `m` with latency 1 ms. -/
def latB : TestResult :=
  { test_name := "greet", model_name := "m", passed := true, expected := "hi",
    actual := "hi", run_number := 2, error := none, distance := some 0,
    latency_ms := some 1 }

/-- A run matrix: `m1` with an explicit run count of 2, `m2` falling back
to the default `runs_per_test = 1`. -/
def trcW : TestRunConfig :=
  { models := [{ name := "m1", runs := 2, runsSet := true },
               { name := "m2", runs := 5, runsSet := false }],
    runs_per_test := 1 }

/-- The `m1` entry of `trcW`. -/
def mrW : ModelRunConfig := { name := "m1", runs := 2, runsSet := true }

/-- A completion order for the tasks of `trcW` on test `greet`, shuffled
relative to submission order. -/
def completedW : List (String × String × Nat) :=
  [("greet", "m2", 1), ("greet", "m1", 2), ("greet", "m1", 1)]

/-- A work-item failure oracle: the future of every second run raises. -/
def raisesW : String × String × Nat → Option String :=
  fun t => if t.2.2 = 2 then some "thread died" else none

theorem levD_symm (a b : List Char) : ∀ i j, levD a b i j = levD b a j i := by
  intro i
  induction i with
  | zero => intro j; cases j <;> simp [levD]
  | succ i ih =>
    intro j
    induction j with
    | zero => simp [levD]
    | succ j ihj =>
      have hc : (if a.getD i ' ' = b.getD j ' ' then 0 else 1) =
          (if b.getD j ' ' = a.getD i ' ' then 0 else 1) := by
        by_cases h : a.getD i ' ' = b.getD j ' '
        · rw [if_pos h, if_pos h.symm]
        · rw [if_neg h, if_neg (Ne.symm h)]
      simp only [levD]
      rw [ih (j + 1), ihj, ih j, hc]
      omega

theorem levD_self (a : List Char) : ∀ i, levD a a i i = 0 := by
  intro i
  induction i with
  | zero => simp [levD]
  | succ i ih =>
    simp only [levD]
    rw [ih]
    simp

theorem curRowAux_spec (a b : List Char) (i : Nat) :
    ∀ (cs : List Char) (j : Nat), cs = b.drop j →
      curRowAux (a.getD i ' ') cs
        ((List.range' j (b.length + 1 - j)).map (levD a b i))
        (levD a b (i + 1) j)
      = (List.range' (j + 1) (b.length - j)).map (levD a b (i + 1)) := by
  intro cs
  induction cs with
  | nil =>
    intro j hj
    have hle : b.length ≤ j := List.drop_eq_nil_iff.mp hj.symm
    have h1 : b.length - j = 0 := by omega
    rw [h1]
    simp [curRowAux]
  | cons c2 cs ih =>
    intro j hj
    have hjlt : j < b.length := by
      by_contra hh
      have hnil : b.drop j = [] := List.drop_eq_nil_iff.mpr (by omega)
      rw [hnil] at hj
      exact List.noConfusion hj
    have hc2 : b.getD j ' ' = c2 := by
      have h0 : (List.drop j b)[0]? = some c2 := by rw [← hj]; simp
      rw [List.getElem?_drop] at h0
      rw [Nat.add_zero] at h0
      simp [List.getD_eq_getElem?_getD, h0]
    have hcs : cs = b.drop (j + 1) := by
      have hdd : List.drop 1 (List.drop j b) = List.drop (j + 1) b := List.drop_drop 1 j b
      rw [← hj] at hdd
      exact hdd
    have hlen : b.length + 1 - j = (b.length - j) + 1 := by omega
    have hlen2 : b.length - j = (b.length - (j + 1)) + 1 := by omega
    rw [hlen, List.range'_succ, hlen2, List.range'_succ, List.map_cons, List.map_cons]
    rw [curRowAux]
    have hv : min (levD a b i (j + 1) + 1)
        (min (levD a b (i + 1) j + 1)
          (levD a b i j + (if a.getD i ' ' = c2 then 0 else 1)))
        = levD a b (i + 1) (j + 1) := by
      rw [← hc2]
      simp only [levD]
    have hsh : levD a b i (j + 1) :: (List.range' (j + 1 + 1) (b.length - (j + 1))).map (levD a b i)
        = (List.range' (j + 1) (b.length + 1 - (j + 1))).map (levD a b i) := by
      rw [show b.length + 1 - (j + 1) = (b.length - (j + 1)) + 1 by omega, List.range'_succ,
        List.map_cons]
    rw [hv]
    rw [hsh, ih (j + 1) hcs]
    rw [show b.length - (j + 1) = b.length - j - 1 by omega]
    rw [List.map_cons]

theorem levLoop_spec (a b : List Char) :
    ∀ (cs : List Char) (i : Nat), cs = a.drop i → i ≤ a.length →
      levLoop b cs i ((List.range (b.length + 1)).map (levD a b i))
      = (List.range (b.length + 1)).map (levD a b a.length) := by
  intro cs
  induction cs with
  | nil =>
    intro i hi hle
    have h1 : a.length ≤ i := List.drop_eq_nil_iff.mp hi.symm
    have h2 : i = a.length := by omega
    subst h2
    simp [levLoop]
  | cons c1 cs ih =>
    intro i hi hle
    have hilt : i < a.length := by
      by_contra hh
      have hnil : a.drop i = [] := List.drop_eq_nil_iff.mpr (by omega)
      rw [hnil] at hi
      exact List.noConfusion hi
    have hc1 : a.getD i ' ' = c1 := by
      have h0 : (List.drop i a)[0]? = some c1 := by rw [← hi]; simp
      rw [List.getElem?_drop] at h0
      rw [Nat.add_zero] at h0
      simp [List.getD_eq_getElem?_getD, h0]
    have hcs : cs = a.drop (i + 1) := by
      have hdd : List.drop 1 (List.drop i a) = List.drop (i + 1) a := List.drop_drop 1 i a
      rw [← hi] at hdd
      exact hdd
    rw [levLoop]
    have hrow : (i + 1) :: curRowAux c1 b ((List.range (b.length + 1)).map (levD a b i)) (i + 1)
        = (List.range (b.length + 1)).map (levD a b (i + 1)) := by
      have h0 := curRowAux_spec a b i b 0 rfl
      rw [hc1] at h0
      have hz : levD a b (i + 1) 0 = i + 1 := by simp [levD]
      rw [hz] at h0
      simp only [Nat.sub_zero] at h0
      rw [List.range_eq_range', h0, List.range'_succ, List.map_cons, hz]
    rw [hrow]
    exact ih (i + 1) hcs (by omega)

theorem lev_core_levD (a b : List Char) : lev_core a b = levD a b a.length b.length := by
  unfold lev_core
  by_cases hb : b.length = 0
  · rw [if_pos hb, hb]
    cases ha : a.length with
    | zero => simp [levD]
    | succ n => simp [levD]
  · rw [if_neg hb]
    have hinit : (List.range (b.length + 1)) = (List.range (b.length + 1)).map (levD a b 0) := by
      rw [List.map_congr_left (fun x _ => by simp [levD] : ∀ x ∈ List.range (b.length + 1), levD a b 0 x = id x)]
      simp
    rw [hinit, levLoop_spec a b a 0 (by simp) (by omega)]
    rw [List.range_succ, List.map_append]
    simp

theorem lev_last_row (f : Nat → Nat) (n : Nat) :
    ((List.range (n + 1)).map f).getLastD 0 = f n := by
  rw [List.range_succ, List.map_append]
  simp

/-- Claim C8: the Levenshtein distance of test_runner.py is symmetric, is
zero on equal strings, degenerates to the length on an empty first
argument, and values the classic kitten/sitting pair at 3. -/
theorem levenshtein_distance_properties :
    (∀ a b : String, levenshtein_distance a b = levenshtein_distance b a) ∧
    (∀ a : String, levenshtein_distance a a = 0) ∧
    (∀ s : String, levenshtein_distance "" s = s.length) ∧
    levenshtein_distance "kitten" "sitting" = 3 := by
  refine ⟨?_, ?_, ?_, by decide⟩
  · intro a b
    unfold levenshtein_distance
    rcases lt_trichotomy a.data.length b.data.length with h | h | h
    · rw [if_pos h, if_neg (by omega)]
    · rw [if_neg (by omega), if_neg (by omega), lev_core_levD, lev_core_levD,
        levD_symm, h]
    · rw [if_neg (by omega), if_pos h]
  · intro a
    unfold levenshtein_distance
    rw [if_neg (by omega), lev_core_levD, levD_self]
  · intro s
    unfold levenshtein_distance
    by_cases h : s.data.length = 0
    · rw [if_neg (by simp [h])]
      rw [lev_core_levD]
      have h0 : ("" : String).data.length = 0 := rfl
      rw [h0, h]
      rw [show levD "".data s.data 0 0 = 0 by simp [levD]]
      simp [String.length, h]
    · have hlt : ("" : String).data.length < s.data.length := by
        have h0 : ("" : String).data.length = 0 := rfl
        omega
      rw [if_pos hlt]
      unfold lev_core
      rw [if_pos (show ("" : String).data.length = 0 from rfl)]
      rfl

theorem run_single_test_key (tests : List (String × TestConfig))
    (models : List (String × ModelConfig)) (gen : Except String GenerateResult)
    (elapsed_ms : Rat) (tn mn : String) (k : Nat) :
    (run_single_test tests models gen elapsed_ms tn mn k).test_name = tn ∧
    (run_single_test tests models gen elapsed_ms tn mn k).model_name = mn ∧
    (run_single_test tests models gen elapsed_ms tn mn k).run_number = k := by
  unfold run_single_test
  cases hl : List.lookup tn tests with
  | none => exact ⟨rfl, rfl, rfl⟩
  | some tc =>
    cases hm : List.lookup mn models with
    | none => exact ⟨rfl, rfl, rfl⟩
    | some mc =>
      cases gen with
      | error e => exact ⟨rfl, rfl, rfl⟩
      | ok r => exact ⟨rfl, rfl, rfl⟩

theorem run_test_item_key (tests : List (String × TestConfig))
    (models : List (String × ModelConfig))
    (genOf : String × String × Nat → Except String GenerateResult)
    (elapsedOf : String × String × Nat → Rat)
    (raises : String × String × Nat → Option String) (t : String × String × Nat) :
    resultKey (run_test_item tests models genOf elapsedOf raises t) = t := by
  unfold run_test_item
  cases hr : raises t with
  | none =>
    obtain ⟨h1, h2, h3⟩ := run_single_test_key tests models (genOf t) (elapsedOf t) t.1 t.2.1 t.2.2
    unfold resultKey
    rw [h1, h2, h3]
  | some e => rfl

theorem block_filterMap_ne (tn nm name : String) (N : Nat) (h : ¬ nm = name) :
    ((List.range N).map (fun k => (tn, nm, k + 1))).filterMap
      (fun t : String × String × Nat => if t.2.1 = name then some t.2.2 else none) = [] := by
  rw [List.filterMap_map]
  simp [Function.comp, h]

theorem block_filterMap_self (tn nm : String) (N : Nat) :
    ((List.range N).map (fun k => (tn, nm, k + 1))).filterMap
      (fun t : String × String × Nat => if t.2.1 = nm then some t.2.2 else none)
      = List.range' 1 N := by
  rw [List.filterMap_map]
  rw [List.range'_eq_map_range]
  have : ∀ k ∈ List.range N,
      ((fun t : String × String × Nat => if t.2.1 = nm then some t.2.2 else none) ∘
        (fun k => (tn, nm, k + 1))) k = some (1 + k) := by
    intro k _
    simp [Function.comp, Nat.add_comm]
  rw [List.filterMap_congr this]
  rw [show (fun x : Nat => some (1 + x)) = (some ∘ fun x : Nat => 1 + x) from rfl,
    List.filterMap_eq_map]

theorem tasks_filterMap_nil (tn : String) (d : Nat) (name : String) :
    ∀ (l : List ModelRunConfig), (∀ m' ∈ l, ¬ m'.name = name) →
      ((l.flatMap (fun m =>
          (List.range (effective_runs m d)).map (fun k => (tn, m.name, k + 1)))).filterMap
        (fun t : String × String × Nat => if t.2.1 = name then some t.2.2 else none)) = [] := by
  intro l
  induction l with
  | nil => intro _; rfl
  | cons m' l' ih =>
    intro h
    rw [List.flatMap_cons, List.filterMap_append]
    rw [block_filterMap_ne tn m'.name name _ (h m' (List.mem_cons_self m' l'))]
    rw [ih (fun x hx => h x (List.mem_cons_of_mem m' hx))]
    rfl

theorem tasks_runNumbers (tn : String) (d : Nat) :
    ∀ (l : List ModelRunConfig), (l.map (fun m => m.name)).Nodup →
      ∀ mr : ModelRunConfig, mr ∈ l →
        ((l.flatMap (fun m =>
            (List.range (effective_runs m d)).map (fun k => (tn, m.name, k + 1)))).filterMap
          (fun t : String × String × Nat => if t.2.1 = mr.name then some t.2.2 else none))
        = List.range' 1 (effective_runs mr d) := by
  intro l
  induction l with
  | nil => intro _ mr hmr; exact absurd hmr (List.not_mem_nil mr)
  | cons m l ih =>
    intro hnd mr hmr
    have hnd' := List.nodup_cons.mp hnd
    rw [List.flatMap_cons, List.filterMap_append]
    rcases List.mem_cons.mp hmr with h | h
    · subst h
      rw [block_filterMap_self]
      have htail : ∀ m' ∈ l, ¬ m'.name = mr.name := by
        intro m' hm' he
        have hmem : m'.name ∈ List.map (fun m => m.name) l :=
          List.mem_map_of_mem (fun m => m.name) hm'
        rw [he] at hmem
        exact hnd'.1 hmem
      rw [tasks_filterMap_nil tn d mr.name l htail, List.append_nil]
    · have hne : ¬ m.name = mr.name := by
        intro he
        have hmem : mr.name ∈ List.map (fun m => m.name) l :=
          List.mem_map_of_mem (fun m => m.name) h
        rw [← he] at hmem
        exact hnd'.1 hmem
      rw [block_filterMap_ne tn m.name mr.name _ hne, List.nil_append]
      exact ih hnd'.2 mr h

/-- Claim C3: for a test known to configuration, and provided the API-key
validation of line 643 does not abort the process (no configured entry
names a remote-endpoint model with a missing or placeholder key —
otherwise `sys.exit(1)` escapes every handler, modelled by the `.error`
branch), `run_test` returns a result list rather than aborting, and that
list has one result per expanded run request — a raising work item is
synthesized into a failing result — with run numbers 1..N per model
entry (N the explicit count when set, else `runs_per_test`), so the
per-(test, model) run numbers are exactly {1..N}. -/
theorem run_test_run_numbers_exact (tests : List (String × TestConfig))
    (models : List (String × ModelConfig))
    (genOf : String × String × Nat → Except String GenerateResult)
    (elapsedOf : String × String × Nat → Rat)
    (raises : String × String × Nat → Option String)
    (completed : List (String × String × Nat)) (test_name : String) (tc : TestConfig)
    (trc : TestRunConfig)
    (hlook : List.lookup test_name tests = some tc)
    (hvalid : validate_all_model_api_keys trc.models models = false)
    (hperm : completed.Perm (expand_tasks test_name trc))
    (hnodup : (trc.models.map (fun m => m.name)).Nodup)
    (mr : ModelRunConfig) (hmr : mr ∈ trc.models) :
    (∃ rs : List TestResult,
      run_test tests models trc genOf elapsedOf raises completed test_name
        = Except.ok rs) ∧
    ∀ rs : List TestResult,
      run_test tests models trc genOf elapsedOf raises completed test_name
        = Except.ok rs →
      rs.length = (expand_tasks test_name trc).length ∧
      (rs.map resultKey).Perm (expand_tasks test_name trc) ∧
      (runNumbersFor rs mr.name).Perm
        (List.range' 1 (effective_runs mr trc.runs_per_test)) := by
  have hok : run_test tests models trc genOf elapsedOf raises completed test_name
      = Except.ok (completed.map (run_test_item tests models genOf elapsedOf raises)) := by
    unfold run_test
    rw [hlook, hvalid]
    rfl
  refine ⟨⟨completed.map (run_test_item tests models genOf elapsedOf raises), hok⟩, ?_⟩
  intro rs hrs
  rw [hok] at hrs
  injection hrs with hrs
  subst hrs
  have hkey : (completed.map (run_test_item tests models genOf elapsedOf raises)).map resultKey
      = completed := by
    rw [List.map_map]
    have : ∀ t ∈ completed,
        (resultKey ∘ run_test_item tests models genOf elapsedOf raises) t = id t :=
      fun t _ => run_test_item_key tests models genOf elapsedOf raises t
    rw [List.map_congr_left this, List.map_id]
  refine ⟨?_, ?_, ?_⟩
  · rw [List.length_map, hperm.length_eq]
  · rw [hkey]; exact hperm
  · unfold runNumbersFor
    rw [List.filterMap_map]
    have hfg : ∀ t ∈ completed,
        ((fun r => if r.model_name = mr.name then some r.run_number else none) ∘
          run_test_item tests models genOf elapsedOf raises) t
        = (fun t : String × String × Nat =>
            if t.2.1 = mr.name then some t.2.2 else none) t := by
      intro t _
      have hk := run_test_item_key tests models genOf elapsedOf raises t
      have h2 : (run_test_item tests models genOf elapsedOf raises t).model_name = t.2.1 := by
        rw [show (run_test_item tests models genOf elapsedOf raises t).model_name
            = (resultKey (run_test_item tests models genOf elapsedOf raises t)).2.1 from rfl, hk]
      have h3 : (run_test_item tests models genOf elapsedOf raises t).run_number = t.2.2 := by
        rw [show (run_test_item tests models genOf elapsedOf raises t).run_number
            = (resultKey (run_test_item tests models genOf elapsedOf raises t)).2.2 from rfl, hk]
      simp only [Function.comp]
      rw [h2, h3]
    rw [List.filterMap_congr hfg]
    have hperm2 := hperm.filterMap
      (fun t : String × String × Nat => if t.2.1 = mr.name then some t.2.2 else none)
    rw [show expand_tasks test_name trc = trc.models.flatMap (fun m =>
        (List.range (effective_runs m trc.runs_per_test)).map
          (fun k => (test_name, m.name, k + 1))) from rfl] at hperm2
    rw [tasks_runNumbers test_name trc.runs_per_test trc.models hnodup mr hmr] at hperm2
    exact hperm2

/-- Claim C7: a run request naming a test absent from configuration gets
an outcome with passed=false, the "not found" error, and no distance —
whatever the model name, connector behaviour or timing. -/
theorem unknown_test_precedence (tests : List (String × TestConfig))
    (models : List (String × ModelConfig)) (gen : Except String GenerateResult)
    (elapsed_ms : Rat) (test_name model_name : String) (run_number : Nat)
    (h : List.lookup test_name tests = none) :
    (run_single_test tests models gen elapsed_ms test_name model_name run_number).passed
      = false ∧
    (run_single_test tests models gen elapsed_ms test_name model_name run_number).error
      = some ("Test \x27" ++ test_name ++ "\x27 not found in configuration") ∧
    (run_single_test tests models gen elapsed_ms test_name model_name run_number).distance
      = none := by
  unfold run_single_test
  rw [h]
  exact ⟨rfl, rfl, rfl⟩

theorem unknown_test_precedence_witness :
    (run_single_test demoTests demoModels (.ok (echo_generate "echo-1" "hi")) 0
      "ghost" "echo-1" 1).passed = false ∧
    (run_single_test demoTests demoModels (.ok (echo_generate "echo-1" "hi")) 0
      "ghost" "echo-1" 1).error
      = some ("Test \x27" ++ "ghost" ++ "\x27 not found in configuration") ∧
    (run_single_test demoTests demoModels (.ok (echo_generate "echo-1" "hi")) 0
      "ghost" "echo-1" 1).distance = none :=
  unknown_test_precedence demoTests demoModels (.ok (echo_generate "echo-1" "hi")) 0
    "ghost" "echo-1" 1 (by decide)

/-- Claim C10: `run_test` with a test name absent from configuration
returns the empty list at once (before the API-key validation and before
any expansion) — no requests are expanded and no "not found" outcomes
are synthesized. -/
theorem run_test_unknown_test (tests : List (String × TestConfig))
    (models : List (String × ModelConfig)) (trc : TestRunConfig)
    (genOf : String × String × Nat → Except String GenerateResult)
    (elapsedOf : String × String × Nat → Rat)
    (raises : String × String × Nat → Option String)
    (completed : List (String × String × Nat)) (test_name : String)
    (h : List.lookup test_name tests = none) :
    run_test tests models trc genOf elapsedOf raises completed test_name
      = Except.ok [] := by
  unfold run_test
  rw [h]

theorem run_test_unknown_test_witness :
    run_test demoTests demoModels trcW (fun _ => .error "e") (fun _ => 0) (fun _ => none)
      [("ghost", "echo-1", 1)] "ghost" = Except.ok [] :=
  run_test_unknown_test demoTests demoModels trcW (fun _ => .error "e") (fun _ => 0)
    (fun _ => none) [("ghost", "echo-1", 1)] "ghost" (by decide)

theorem run_test_run_numbers_exact_witness :
    (∃ rs : List TestResult,
      run_test demoTests demoModels trcW (fun _ => .ok (echo_generate "echo-1" "hi"))
        (fun _ => 1) raisesW completedW "greet" = Except.ok rs) ∧
    ∀ rs : List TestResult,
      run_test demoTests demoModels trcW (fun _ => .ok (echo_generate "echo-1" "hi"))
        (fun _ => 1) raisesW completedW "greet" = Except.ok rs →
      rs.length = (expand_tasks "greet" trcW).length ∧
      (rs.map resultKey).Perm (expand_tasks "greet" trcW) ∧
      (runNumbersFor rs mrW.name).Perm
        (List.range' 1 (effective_runs mrW trcW.runs_per_test)) :=
  run_test_run_numbers_exact demoTests demoModels
    (fun _ => .ok (echo_generate "echo-1" "hi")) (fun _ => 1) raisesW completedW
    "greet" greetTest trcW (by decide) (by decide) (by decide) (by decide) mrW (by decide)

theorem pysort_length (l : List Rat) : (pysort l).length = l.length := by
  unfold pysort
  induction l with
  | nil => rfl
  | cons x xs ih =>
    rw [List.foldr_cons]
    have hins : ∀ (y : Rat) (m : List Rat), (insertSorted y m).length = m.length + 1 := by
      intro y m
      induction m with
      | nil => rfl
      | cons z zs ihm =>
        unfold insertSorted
        split
        · rfl
        · rw [List.length_cons, ihm, List.length_cons]
    rw [hins, ih, List.length_cons]

/-- Claim C9: for a non-empty latency list of a (test, model) cell, the
reported P95 is the element of the ascending sort at index
`floor(count × 0.95)` clamped to the last index. -/
theorem p95_latency_selection (results : List TestResult) (model_name : String)
    (h : cell_latencies results model_name ≠ []) :
    p95_code (cell_latencies results model_name)
      = p95_spec (cell_latencies results model_name) := by
  set l := cell_latencies results model_name with hl
  simp only [p95_code, p95_spec]
  rw [if_neg h]
  have hlen : l.length ≠ 0 := fun h0 => h (List.length_eq_zero.mp h0)
  congr 1
  by_cases hc : l.length ≤ (Rat.floor ((l.length : Rat) * (95 / 100))).toNat
  · rw [if_pos hc]
    omega
  · rw [if_neg hc]
    omega

theorem p95_latency_selection_witness :
    p95_code (cell_latencies [latA, latB] "m") = p95_spec (cell_latencies [latA, latB] "m") :=
  p95_latency_selection [latA, latB] "m" (by decide)

/-- Claim C1 (code behaviour at the claim's scenario): running the exact
match test `greet` (expected = prompt = "hi") three times against the
echo connector yields three outcomes that are all failed with no
distance, each carrying the `AttributeError` message for the missing
`first_byte_latency_ms` field of `GenerateResult`, so the aggregate pass
rate is 0% rather than the claimed 100%. -/
theorem echo_exact_match_runs_code_behavior :
    c1Outcomes.map (fun r => r.passed) = [false, false, false] ∧
    c1Outcomes.map (fun r => r.error)
      = [some attr_error_msg, some attr_error_msg, some attr_error_msg] ∧
    c1Outcomes.map (fun r => r.distance) = [none, none, none] ∧
    console_passed c1Outcomes = 0 ∧
    console_pass_rate c1Outcomes = 0 := by
  refine ⟨by decide, by decide, by decide, by decide, ?_⟩
  have h1 : console_passed c1Outcomes = 0 := by decide
  have h2 : c1Outcomes.length = 3 := by decide
  unfold console_pass_rate
  rw [h1, h2]
  norm_num

/-- Claim C2 (code behaviour): a thrown connector exception is converted
to a failed outcome carrying the exception text, no distance and the
elapsed wall time; but a populated error field in a returned result is
never read — the outcome instead carries the `AttributeError` message for
the missing `first_byte_latency_ms` field, not the connector's error
description. -/
theorem connector_error_field_code_behavior :
    c2Thrown.passed = false ∧ c2Thrown.error = some "kaboom" ∧
    c2Thrown.distance = none ∧ c2Thrown.latency_ms = some 9 ∧
    c2Outcome.passed = false ∧ c2Outcome.error = some attr_error_msg ∧
    ¬ c2Outcome.error = some "boom" ∧ c2Outcome.distance = none ∧
    c2Outcome.latency_ms = some 7 := by
  decide

/-- Claim C6 (code behaviour): for a substring test whose expected text
does occur case-insensitively in the connector's output, `run_single_test`
still returns passed=false with the `AttributeError` message — the
substring comparison of line 581 is unreachable because line 565 raises
first.  The distance is left unset, as the claim states. -/
theorem substring_match_code_behavior :
    substring_pass containsTest.expected_output "say hello there" = true ∧
    c6Outcome.passed = false ∧
    c6Outcome.distance = none ∧
    c6Outcome.error = some attr_error_msg := by
  decide

theorem html_pass_rate_nonneg (rs : List TestResult) : 0 ≤ html_pass_rate rs := by
  unfold html_pass_rate
  split
  · positivity
  · exact le_refl 0

theorem html_passed_zero_rate (rs : List TestResult) (h : html_passed rs = 0) :
    html_pass_rate rs = 0 := by
  unfold html_pass_rate
  rw [h]
  simp

theorem html_rate_zero_passed (rs : List TestResult) (hL : 0 < rs.length)
    (h : html_pass_rate rs = 0) : html_passed rs = 0 := by
  unfold html_pass_rate at h
  rw [if_pos hL] at h
  have hdiv : (html_passed rs : Rat) / (rs.length : Rat) = 0 := by
    rcases mul_eq_zero.mp h with h' | h'
    · exact h'
    · exact absurd h' (by norm_num)
  have hLne : (rs.length : Rat) ≠ 0 :=
    ne_of_gt (by exact_mod_cast hL)
  rcases div_eq_zero_iff.mp hdiv with h' | h'
  · exact_mod_cast h'
  · exact absurd h' hLne

/-- Counterexample to claim C4: a model whose single outcome failed with
no distance has 0% pass rate and average distance 0; the claimed formula
(and the console table) gives score 50, but the HTML export computes 0
because its 0%-branch requires a positive average distance. -/
theorem html_score_zero_rate_counterexample :
    html_passed [rErrorNoDist] = 0 ∧
    html_pass_rate [rErrorNoDist] = 0 ∧
    html_avg_distance [rErrorNoDist] = 0 ∧
    html_score [rErrorNoDist] = 0 ∧
    specCompositeScore (html_pass_rate [rErrorNoDist]) (html_avg_distance [rErrorNoDist])
      = 50 ∧
    console_overall_score (html_pass_rate [rErrorNoDist]) (html_avg_distance [rErrorNoDist])
      = 50 := by
  have hp : html_passed [rErrorNoDist] = 0 := by decide
  have hr : html_pass_rate [rErrorNoDist] = 0 := html_passed_zero_rate _ hp
  have hds : ([rErrorNoDist].filterMap (fun r => r.distance)) = [] := by decide
  have hd : html_avg_distance [rErrorNoDist] = 0 := by
    simp only [html_avg_distance]
    rw [hds]
    simp
  have hs : html_score [rErrorNoDist] = 0 := by
    simp only [html_score]
    rw [hr, hd]
    rw [if_neg (by simp)]
    norm_num [pymin, pymax]
  have hspec : specCompositeScore 0 0 = 50 := by
    unfold specCompositeScore
    rw [if_neg (by norm_num), if_neg (by norm_num)]
    norm_num [pymax]
  have hcons : console_overall_score 0 0 = 50 := by
    unfold console_overall_score
    rw [if_neg (by norm_num), if_neg (by norm_num)]
    norm_num [pymax]
  exact ⟨hp, hr, hd, hs, by rw [hr, hd]; exact hspec, by rw [hr, hd]; exact hcons⟩

/-- Claim C4 as amended: the console overall score follows the claimed
three-branch formula exactly (score 50 at 0% pass rate with zero average
distance included); the HTML export follows it only away from its two
deviating corners — it needs a positive average distance at a 0% pass
rate, and at a 100% pass rate it still subtracts the distance penalty,
so it agrees there only when the average distance is 0. -/
theorem composite_score_amended :
    (∀ pr avg : Rat, console_overall_score pr avg = specCompositeScore pr avg) ∧
    (∀ rs : List TestResult,
      (html_pass_rate rs = 100 → html_avg_distance rs = 0) →
      (html_pass_rate rs = 0 → 0 < html_avg_distance rs) →
      html_score rs = specCompositeScore (html_pass_rate rs) (html_avg_distance rs)) := by
  constructor
  · intro pr avg
    rfl
  · intro rs h100 h0
    by_cases hpr : html_pass_rate rs = 100
    · have havg := h100 hpr
      simp only [html_score]
      rw [havg, hpr]
      rw [if_neg (by simp)]
      unfold specCompositeScore
      rw [if_pos rfl]
      norm_num [pymin, pymax]
    · by_cases hpr0 : html_pass_rate rs = 0
      · have havg := h0 hpr0
        have hL : 0 < rs.length := by
          rcases Nat.eq_zero_or_pos rs.length with h | h
          · exfalso
            have hnil : rs = [] := List.length_eq_zero.mp h
            rw [hnil] at havg
            simp [html_avg_distance] at havg
          · exact h
        have hpassed : html_passed rs = 0 := html_rate_zero_passed rs hL hpr0
        simp only [html_score]
        rw [if_pos ⟨hpassed, havg⟩]
        rw [hpr0]
        unfold specCompositeScore
        rw [if_neg (by norm_num), if_neg (by norm_num)]
      · have hpos : 0 < html_pass_rate rs :=
          lt_of_le_of_ne (html_pass_rate_nonneg rs) (Ne.symm hpr0)
        have hpassed : ¬ html_passed rs = 0 := by
          intro h
          exact hpr0 (html_passed_zero_rate rs h)
        simp only [html_score]
        rw [if_neg (by intro hc; exact hpassed hc.1)]
        unfold specCompositeScore
        rw [if_neg hpr, if_pos hpos]

theorem composite_score_amended_witness :
    console_overall_score 0 0 = specCompositeScore 0 0 ∧
    html_score [rPassZero]
      = specCompositeScore (html_pass_rate [rPassZero]) (html_avg_distance [rPassZero]) := by
  have havg : html_avg_distance [rPassZero] = 0 := by
    have hds : ([rPassZero].filterMap (fun r => r.distance)) = [0] := by decide
    simp only [html_avg_distance]
    rw [hds]
    norm_num
  have hrate : html_pass_rate [rPassZero] = 100 := by
    have hp : html_passed [rPassZero] = 1 := by decide
    unfold html_pass_rate
    rw [hp]
    norm_num
  exact ⟨composite_score_amended.1 0 0,
    composite_score_amended.2 [rPassZero] (fun _ => havg)
      (fun h => absurd (hrate ▸ h) (by norm_num))⟩

/-- Counterexample to claim C5: over one outcome with distance 10 and one
with no distance, the mean over distance-carrying outcomes is 10, but the
console comparison table reports 10 / 2 = 5 — it divides by the total
outcome count, not by the count of distance-carrying outcomes. -/
theorem console_avg_distance_counterexample :
    console_avg_distance [rDist10, rErrorNoDist] = 5 ∧
    specAvgDistance [rDist10, rErrorNoDist] = 10 ∧
    ¬ console_avg_distance [rDist10, rErrorNoDist]
      = specAvgDistance [rDist10, rErrorNoDist] := by
  have h1 : console_total_distance [rDist10, rErrorNoDist] = 10 := by decide
  have h2 : ([rDist10, rErrorNoDist] : List TestResult).length = 2 := rfl
  have hc : console_avg_distance [rDist10, rErrorNoDist] = 5 := by
    unfold console_avg_distance
    rw [h1, h2]
    norm_num
  have h3 : ([rDist10, rErrorNoDist].filter (fun r => r.distance.isSome)) = [rDist10] := by
    decide
  have hs : specAvgDistance [rDist10, rErrorNoDist] = 10 := by
    simp only [specAvgDistance]
    rw [h3]
    norm_num [rDist10]
  refine ⟨hc, hs, by rw [hc, hs]; norm_num⟩

/-- Claim C5 as amended: the HTML export's per-model average distance is
the mean over only the distance-carrying outcomes; the console comparison
table instead sums `distance or 0` over all outcomes and divides by the
total outcome count, so outcomes without a distance are excluded from the
numerator but not from the denominator. -/
theorem avg_distance_amended :
    (∀ rs : List TestResult, html_avg_distance rs = specAvgDistance rs) ∧
    (∀ rs : List TestResult, rs ≠ [] →
      console_avg_distance rs
        = (((rs.map (fun r => r.distance.getD 0)).sum : Nat) : Rat) / (rs.length : Rat)) := by
  constructor
  · intro rs
    have hfm : rs.filterMap (fun r => r.distance)
        = (rs.filter (fun r => r.distance.isSome)).map (fun r => r.distance.getD 0) := by
      induction rs with
      | nil => rfl
      | cons r rs ih =>
        rw [List.filterMap_cons, List.filter_cons]
        cases hd : r.distance with
        | none => simp [hd, ih]
        | some d => simp [hd, ih]
    simp only [html_avg_distance, specAvgDistance]
    rw [hfm, List.length_map]
  · intro rs h
    unfold console_avg_distance console_total_distance
    rw [if_pos (List.length_pos.mpr h)]

theorem avg_distance_amended_witness :
    html_avg_distance [rDist10] = specAvgDistance [rDist10] ∧
    console_avg_distance [rDist10]
      = ((([rDist10].map (fun r => r.distance.getD 0)).sum : Nat) : Rat)
        / (([rDist10] : List TestResult).length : Rat) :=
  ⟨avg_distance_amended.1 [rDist10], avg_distance_amended.2 [rDist10] (by decide)⟩
